import Mathlib

/-
Shallow embedding of the gradient-descent optimizer of this repository
(src/gradient.py) together with the vector-ops collaborator it depends on
(src/vector.py, src/validator.py).

Modelling conventions:
- Python floats are modelled as rationals; the sentinel value float('inf')
  produced by the safe wrapper is modelled by an explicit Score type with an
  extra point at infinity, ordered the way Python orders floats against inf.
- A Python function that can raise is modelled as returning Except PyError;
  a function that cannot raise is a plain Lean function.
- Python's min(xs, key=k) keeps the first element and replaces the running
  best only when the new key is strictly smaller, so ties keep the earlier
  element; foldMin/pyMin reproduce exactly that.
- The unbounded while-loop of minimize_batch is modelled with explicit fuel;
  one loop body is minimize_batch_step.
-/

namespace PyDS

/-- Python exceptions relevant to this code base. -/
inductive PyError where
  | nameError (name : String)
  | indexError (msg : String)
  | typeError
deriving DecidableEq

/-- A Point (theta) or Gradient: an ordered sequence of numbers. -/
abbrev Point := List ℚ

/-- Score of the objective as seen by the descent loop: either an ordinary
float (modelled as a rational) or the positive-infinity sentinel produced by
the safe wrapper. -/
inductive Score where
  | val (q : ℚ)
  | inf
deriving DecidableEq

/-- Python float comparison restricted to the values the loop can see:
finite values compare as rationals, every finite value is below inf, and
inf < inf is false. -/
def scoreLt : Score → Score → Bool
  | .val a, .val b => decide (a < b)
  | .val _, .inf => true
  | .inf, _ => false

/-- The test abs(value - next_value) < tolerance on Python floats: when either
operand is inf the subtraction gives inf or nan and the comparison is False. -/
def absDiffLt (value next_value : Score) (tolerance : ℚ) : Bool :=
  match value, next_value with
  | .val a, .val b => decide (|a - b| < tolerance)
  | _, _ => false

/-- An objective function handed to the optimizer: evaluation may fail. -/
abbrev TargetFn := Point → Except PyError ℚ

/-- src/gradient.py, step (lines 46-51): move step_size in the direction
from v.  The source zips v with direction, so unequal lengths silently
truncate to the shorter list. -/
def step (v direction : Point) (step_size : ℚ) : Point :=
  List.zipWith (fun v_i direction_i => v_i + step_size * direction_i) v direction

/-- src/gradient.py, sum_of_squares_gradient (lines 54-58). -/
def sum_of_squares_gradient (v : Point) : Point :=
  v.map (fun v_i => 2 * v_i)

/-- src/gradient.py, safe (lines 61-71): same as f except that it outputs
infinity whenever f produces an error; a bare except catches every fault. -/
def safe {α : Type} (f : α → Except PyError ℚ) : α → Score := fun x =>
  match f x with
  | .ok v => .val v
  | .error _ => .inf

/-- src/gradient.py, negate (lines 97-101), instantiated at the batch
objective signature: if f raises, the negation raises the same error. -/
def negate (f : TargetFn) : TargetFn := fun x => (f x).map (fun y => -y)

/-- src/gradient.py, negate_all (lines 104-108), instantiated at the batch
gradient signature (a pure Point-to-Point function in this embedding). -/
def negate_all (f : Point → Point) : Point → Point := fun x => (f x).map (fun y => -y)

/-- Running fold of Python's min(..., key=...): replace the running best only
when the candidate's key is strictly smaller, so the first minimal element
encountered wins. -/
def foldMin (key : Point → Score) (best : Point) : List Point → Point
  | [] => best
  | c :: cs => foldMin key (if scoreLt (key c) (key best) then c else best) cs

/-- Python's min(xs, key=k): none on the empty list (ValueError in Python). -/
def pyMin (key : Point → Score) : List Point → Option Point
  | [] => none
  | x :: xs => some (foldMin key x xs)

/-- src/gradient.py, minimize_batch (line 78): the fixed step-size menu. -/
def step_sizes : List ℚ :=
  [100, 10, 1, 1/10, 1/100, 1/1000, 1/10000, 1/100000]

/-- The candidate list built each iteration of minimize_batch (lines 86-87):
step theta gradient (-step_size) for each menu entry, in menu order. -/
def next_thetas (theta gradient : Point) : List Point :=
  step_sizes.map (fun step_size => step theta gradient (-step_size))

/-- One body of the while-loop of minimize_batch (lines 84-94).  Sum.inr r
means the loop terminated returning r; Sum.inl (theta, value) is the state
carried into the next iteration. -/
def minimize_batch_step (target : Point → Score) (gradient_fn : Point → Point)
    (tolerance : ℚ) (theta : Point) (value : Score) : (Point × Score) ⊕ Point :=
  match pyMin target (next_thetas theta (gradient_fn theta)) with
  | none => Sum.inr theta
  | some next_theta =>
    if absDiffLt value (target next_theta) tolerance then Sum.inr theta
    else Sum.inl (next_theta, target next_theta)

/-- Fueled unfolding of the while True loop of minimize_batch: none means the
fuel ran out before the tolerance test fired. -/
def minimize_batch_aux (target : Point → Score) (gradient_fn : Point → Point)
    (tolerance : ℚ) : ℕ → Point → Score → Option Point
  | 0, _, _ => none
  | fuel + 1, theta, value =>
    match minimize_batch_step target gradient_fn tolerance theta value with
    | Sum.inr r => some r
    | Sum.inl (theta2, value2) =>
      minimize_batch_aux target gradient_fn tolerance fuel theta2 value2

/-- src/gradient.py, minimize_batch (lines 74-94): wrap the target with safe,
seed value at theta_0, and iterate. -/
def minimize_batch (target_fn : TargetFn) (gradient_fn : Point → Point)
    (theta_0 : Point) (tolerance : ℚ) (fuel : ℕ) : Option Point :=
  minimize_batch_aux (safe target_fn) gradient_fn tolerance fuel theta_0
    (safe target_fn theta_0)

/-- src/gradient.py, maximize_batch (lines 111-118). -/
def maximize_batch (target_fn : TargetFn) (gradient_fn : Point → Point)
    (theta_0 : Point) (tolerance : ℚ) (fuel : ℕ) : Option Point :=
  minimize_batch (negate target_fn) (negate_all gradient_fn) theta_0 tolerance fuel

/-- src/gradient.py, in_random_order (lines 126-134).  The generator body
builds the index list and then calls random.shuffle, but gradient.py never
imports random, so iterating the generator raises NameError for the unbound
name random before yielding anything, whatever the data is. -/
def in_random_order (data : List (ℚ × ℚ)) : Except PyError (List (ℚ × ℚ)) :=
  let _indexes := List.range data.length
  Except.error (PyError.nameError "random")

/-- A per-example objective for the stochastic variant:
target_fn x_i y_i theta. -/
abbrev StochasticTargetFn := ℚ → ℚ → Point → Except PyError ℚ

/-- A per-example gradient for the stochastic variant. -/
abbrev StochasticGradientFn := ℚ → ℚ → Point → Point

/-- src/gradient.py, minimize_stochastic (lines 137-165).  The setup of
lines 141-145 binds locals without any effect, and the loop condition at
line 147 reads the name iterations_with_no_imporovement (note the
misspelling), which is bound nowhere in the function or module, so every
call raises NameError at the first loop test, before any iteration runs. -/
def minimize_stochastic (target_fn : StochasticTargetFn)
    (gradient_fn : StochasticGradientFn) (x y : List ℚ) (theta_0 : Point)
    (alpha_0 : ℚ) : Except PyError Point :=
  let _data := List.zip x y
  let _theta := theta_0
  let _alpha := alpha_0
  let _min_value := Score.inf
  let _iterations_with_no_improvement : ℕ := 0
  Except.error (PyError.nameError "iterations_with_no_imporovement")

/-- src/gradient.py, negate (lines 97-101), instantiated at the per-example
objective signature of the stochastic variant. -/
def negateS (f : StochasticTargetFn) : StochasticTargetFn :=
  fun x_i y_i theta => (f x_i y_i theta).map (fun y => -y)

/-- src/gradient.py, negate_all (lines 104-108), instantiated at the
per-example gradient signature of the stochastic variant. -/
def negate_allS (f : StochasticGradientFn) : StochasticGradientFn :=
  fun x_i y_i theta => (f x_i y_i theta).map (fun y => -y)

/-- src/gradient.py, maximize_stochastic (lines 168-174). -/
def maximize_stochastic (target_fn : StochasticTargetFn)
    (gradient_fn : StochasticGradientFn) (x y : List ℚ) (theta_0 : Point)
    (alpha_0 : ℚ) : Except PyError Point :=
  minimize_stochastic (negateS target_fn) (negate_allS gradient_fn) x y theta_0 alpha_0

/-- A Python value as the vector-ops collaborator can receive it: an int, a
float, a string, or a nested list. -/
inductive PyVal where
  | int (n : ℤ)
  | float (q : ℚ)
  | str (s : String)
  | list (xs : List PyVal)

/-- src/validator.py, is_vector (lines 7-39): every element is a str, an int
or a float (note that strings are accepted). -/
def is_vector (to_check : List PyVal) : Bool :=
  to_check.all (fun i =>
    match i with
    | .str _ => true
    | .int _ => true
    | .float _ => true
    | .list _ => false)

/-- Python's binary subtraction on the values is_vector lets through:
numbers subtract (int minus int stays int, otherwise float), anything
involving a string or a list raises TypeError. -/
def pySub : PyVal → PyVal → Except PyError PyVal
  | .int a, .int b => .ok (.int (a - b))
  | .int a, .float b => .ok (.float ((a : ℚ) - b))
  | .float a, .int b => .ok (.float (a - (b : ℚ)))
  | .float a, .float b => .ok (.float (a - b))
  | _, _ => .error PyError.typeError

/-- src/vector.py, vector_subtract (lines 49-89): validate both arguments
with is_vector, check equal lengths, then subtract elementwise; the element
subtraction itself can still raise TypeError on string elements. -/
def vector_subtract (v1 v2 : List PyVal) : Except PyError (List PyVal) :=
  if !(is_vector v1 && is_vector v2) then
    .error (.indexError "One of the vectors passed is not a valid vector")
  else if v1.length != v2.length then
    .error (.indexError "Vectors must be the same length")
  else
    (v1.zip v2).mapM (fun p => pySub p.1 p.2)

/-- Modelled from the spec (section 4.3c) for comparison with the source's
selection: select the candidate with the minimum score, breaking ties by menu
order, so the first minimal value encountered wins.  Recursively: keep the
head unless some candidate further down scores strictly smaller. -/
def selectSpec (key : Point → Score) : List Point → Option Point
  | [] => none
  | x :: xs =>
    match selectSpec key xs with
    | none => some x
    | some m => some (if scoreLt (key m) (key x) then m else x)

/-! Concrete objective and gradient functions used to instantiate theorems. -/

/-- A concrete always-succeeding linear objective: the sum of coordinates. -/
def cxLinear : TargetFn := fun theta => Except.ok theta.sum

/-- A concrete gradient function returning the constant direction [-1]. -/
def cxGradConstNeg : Point → Point := fun _ => [-1]

/-- A concrete always-succeeding objective: the sum of squares. -/
def ssTarget : TargetFn := fun theta => Except.ok ((theta.map (fun a => a * a)).sum)

/-- A concrete objective that always evaluates normally to 5. -/
def cxOkFn : TargetFn := fun _ => Except.ok 5

/-- A concrete objective that always raises. -/
def cxFailFn : TargetFn := fun _ => Except.error PyError.typeError

/-! Theorems about the embedded program. -/

/-- C2: the claim says minimize_stochastic terminates for every input by the
100-iterations-without-improvement patience rule and returns the best-so-far
Point.  The code instead raises NameError at the very first loop test: the
while condition at gradient.py line 147 reads the misspelled, unbound name
iterations_with_no_imporovement.  No input ever reaches an iteration or
gets a Point back. -/
theorem minimize_stochastic_raises_name_error (target_fn : StochasticTargetFn)
    (gradient_fn : StochasticGradientFn) (x y : List ℚ) (theta_0 : Point)
    (alpha_0 : ℚ) :
    minimize_stochastic target_fn gradient_fn x y theta_0 alpha_0 =
      Except.error (PyError.nameError "iterations_with_no_imporovement") := rfl

/-- C3: the claim says every outer iteration of minimize_stochastic visits
every example pair exactly once in a freshly reshuffled random permutation.
The shuffling helper in_random_order cannot produce any permutation: its body
calls random.shuffle while gradient.py never imports random, so iterating it
raises NameError for every dataset (and minimize_stochastic itself already
raises NameError at its loop condition before ever calling it, while the
single zip at line 141 would be exhausted after one traversal in any case). -/
theorem in_random_order_raises_name_error (data : List (ℚ × ℚ)) :
    in_random_order data = Except.error (PyError.nameError "random") := rfl

/-- C5: safe f returns exactly f's value when f evaluates normally, returns
the positive-infinity sentinel when f raises, and in every case produces a
Score rather than propagating a failure. -/
theorem safe_spec {α : Type} (f : α → Except PyError ℚ) (x : α) :
    (∀ q, f x = Except.ok q → safe f x = Score.val q) ∧
    (∀ e, f x = Except.error e → safe f x = Score.inf) ∧
    ((∃ q, f x = Except.ok q ∧ safe f x = Score.val q) ∨ safe f x = Score.inf) := by
  refine ⟨fun q hq => by simp [safe, hq], fun e he => by simp [safe, he], ?_⟩
  cases hfx : f x with
  | ok q => exact Or.inl ⟨q, rfl, by simp [safe, hfx]⟩
  | error e => exact Or.inr (by simp [safe, hfx])

/-- Witness for C5: safe at a normally evaluating objective and at an
always-raising objective, on the concrete input [0]. -/
theorem safe_spec_witness :
    safe cxOkFn [0] = Score.val 5 ∧ safe cxFailFn [0] = Score.inf :=
  ⟨(safe_spec cxOkFn [0]).1 5 rfl, (safe_spec cxFailFn [0]).2.1 PyError.typeError rfl⟩

/-- C7: for equal-length theta and g, step theta g (-s) has the same length
as theta and its i-th coordinate is theta_i - s * g_i. -/
theorem step_against_gradient (theta g : Point) (s : ℚ)
    (h : theta.length = g.length) :
    (step theta g (-s)).length = theta.length ∧
    ∀ (i : ℕ) (hi : i < theta.length) (hg : i < g.length)
      (hs : i < (step theta g (-s)).length),
      (step theta g (-s)).get ⟨i, hs⟩ =
        theta.get ⟨i, hi⟩ - s * g.get ⟨i, hg⟩ := by
  constructor
  · simp [step, h]
  · intro i hi hg hs
    simp only [step, List.get_eq_getElem, List.getElem_zipWith]
    ring

/-- Witness for C7: step [3, 4] [1, 2] (-2) has length 2 and first coordinate
3 - 2 * 1. -/
theorem step_against_gradient_witness :
    (step [(3 : ℚ), 4] [1, 2] (-2)).length = 2 ∧
    (step [(3 : ℚ), 4] [1, 2] (-2)).get ⟨0, by decide⟩ = 3 - 2 * 1 :=
  ⟨(step_against_gradient [3, 4] [1, 2] 2 (by decide)).1,
   (step_against_gradient [3, 4] [1, 2] 2 (by decide)).2 0 (by decide) (by decide)
     (by decide)⟩

/-- C8: maximize_batch returns exactly what minimize_batch returns on the
negate-wrapped target and negate_all-wrapped gradient, and likewise
maximize_stochastic for minimize_stochastic, the located result unchanged. -/
theorem maximize_is_negated_minimize :
    (∀ (target_fn : TargetFn) (gradient_fn : Point → Point) (theta_0 : Point)
      (tolerance : ℚ) (fuel : ℕ),
      maximize_batch target_fn gradient_fn theta_0 tolerance fuel =
        minimize_batch (negate target_fn) (negate_all gradient_fn) theta_0
          tolerance fuel) ∧
    (∀ (target_fn : StochasticTargetFn) (gradient_fn : StochasticGradientFn)
      (x y : List ℚ) (theta_0 : Point) (alpha_0 : ℚ),
      maximize_stochastic target_fn gradient_fn x y theta_0 alpha_0 =
        minimize_stochastic (negateS target_fn) (negate_allS gradient_fn) x y
          theta_0 alpha_0) :=
  ⟨fun _ _ _ _ _ => rfl, fun _ _ _ _ _ _ => rfl⟩

/-! Order facts about scoreLt (Python float comparison with the inf
sentinel): an irreflexive, asymmetric, transitive strict order whose
incomparabilities behave like equalities. -/

theorem scoreLt_irrefl (a : Score) : scoreLt a a = false := by
  cases a <;> simp [scoreLt]

theorem scoreLt_asymm {a b : Score} (h : scoreLt a b = true) :
    scoreLt b a = false := by
  cases a <;> cases b <;> simp_all [scoreLt] <;> linarith

theorem scoreLt_trans {a b c : Score} (h1 : scoreLt a b = true)
    (h2 : scoreLt b c = true) : scoreLt a c = true := by
  cases a <;> cases b <;> cases c <;> simp_all [scoreLt] <;> linarith

theorem scoreLt_le_lt {a b c : Score} (h1 : scoreLt b a = false)
    (h2 : scoreLt b c = true) : scoreLt a c = true := by
  cases a <;> cases b <;> cases c <;> simp_all [scoreLt] <;> linarith

theorem scoreLt_lt_le {a b c : Score} (h1 : scoreLt a b = true)
    (h2 : scoreLt c b = false) : scoreLt a c = true := by
  cases a <;> cases b <;> cases c <;> simp_all [scoreLt] <;> linarith

/-! Facts about the running fold of Python's min(..., key=...). -/

/-- The fold's result is either the initial best or one of the candidates. -/
theorem foldMin_mem (key : Point → Score) (l : List Point) :
    ∀ best, foldMin key best l = best ∨ foldMin key best l ∈ l := by
  induction l with
  | nil => intro best; exact Or.inl rfl
  | cons c cs ih =>
    intro best
    rw [foldMin]
    rcases ih (if scoreLt (key c) (key best) then c else best) with h | h
    · rw [h]
      by_cases hc : scoreLt (key c) (key best) = true
      · exact Or.inr (by simp [hc])
      · exact Or.inl (by simp [hc])
    · exact Or.inr (List.mem_cons_of_mem _ h)

/-- No element of best :: l scores strictly below the fold's result. -/
theorem foldMin_min (key : Point → Score) (l : List Point) :
    ∀ best, ∀ c ∈ best :: l, scoreLt (key c) (key (foldMin key best l)) = false := by
  induction l with
  | nil =>
    intro best c hc
    simp only [List.mem_cons, List.not_mem_nil, or_false] at hc
    subst hc
    exact scoreLt_irrefl _
  | cons d ds ih =>
    intro best c hc
    rw [foldMin]
    by_cases hd : scoreLt (key d) (key best) = true
    · rw [if_pos hd]
      have hmemd : scoreLt (key d) (key (foldMin key d ds)) = false :=
        ih d d (List.mem_cons_self d ds)
      rcases List.mem_cons.mp hc with rfl | hc2
      · exact scoreLt_asymm (scoreLt_le_lt hmemd hd)
      · rcases List.mem_cons.mp hc2 with rfl | hc3
        · exact hmemd
        · exact ih d c (List.mem_cons_of_mem _ hc3)
    · rw [if_neg hd]
      have hd2 : scoreLt (key d) (key best) = false := by
        cases h2 : scoreLt (key d) (key best) with
        | false => rfl
        | true => exact absurd h2 hd
      have hmemb : scoreLt (key best) (key (foldMin key best ds)) = false :=
        ih best best (List.mem_cons_self best ds)
      rcases List.mem_cons.mp hc with rfl | hc2
      · exact hmemb
      · rcases List.mem_cons.mp hc2 with rfl | hc3
        · cases h3 : scoreLt (key c) (key (foldMin key best ds)) with
          | false => rfl
          | true => exact absurd (scoreLt_lt_le h3 hmemb) (by rw [hd2]; simp)
        · exact ih best c (List.mem_cons_of_mem _ hc3)

/-- A successful pyMin result belongs to the list and no list element scores
strictly below it. -/
theorem pyMin_some_mem_min (key : Point → Score) (l : List Point) (m : Point)
    (h : pyMin key l = some m) :
    m ∈ l ∧ ∀ c ∈ l, scoreLt (key c) (key m) = false := by
  cases l with
  | nil => exact absurd h (by simp [pyMin])
  | cons x xs =>
    have hm : foldMin key x xs = m := by
      have := h
      rw [pyMin] at this
      exact Option.some_injective _ this
    subst hm
    refine ⟨?_, fun c hc => foldMin_min key xs x c hc⟩
    rcases foldMin_mem key xs x with h2 | h2
    · rw [h2]; exact List.mem_cons_self x xs
    · exact List.mem_cons_of_mem _ h2

/-- Key step relating the fold to the spec-side recursion: folding from an
initial best that already incorporates one comparison equals comparing the
fold of the rest against the outer element afterwards. -/
theorem foldMin_shift (key : Point → Score) (ys : List Point) :
    ∀ x y, scoreLt (key y) (key x) = false →
      foldMin key x ys =
        if scoreLt (key (foldMin key y ys)) (key x) then foldMin key y ys
        else x := by
  induction ys with
  | nil =>
    intro x y hyx
    simp only [foldMin]
    rw [if_neg (by rw [hyx]; simp)]
  | cons c cs ih =>
    intro x y hyx
    rw [foldMin, foldMin]
    by_cases hcx : scoreLt (key c) (key x) = true
    · by_cases hcy : scoreLt (key c) (key y) = true
      · rw [if_pos hcx, if_pos hcy]
        have hmin : scoreLt (key c) (key (foldMin key c cs)) = false :=
          foldMin_min key cs c c (List.mem_cons_self c cs)
        rw [if_pos (scoreLt_le_lt hmin hcx)]
      · have hcy2 : scoreLt (key c) (key y) = false := by
          cases h2 : scoreLt (key c) (key y) with
          | false => rfl
          | true => exact absurd h2 hcy
        exact absurd (scoreLt_le_lt hcy2 hcx) (by rw [hyx]; simp)
    · have hcx2 : scoreLt (key c) (key x) = false := by
        cases h2 : scoreLt (key c) (key x) with
        | false => rfl
        | true => exact absurd h2 hcx
      rw [if_neg hcx]
      by_cases hcy : scoreLt (key c) (key y) = true
      · rw [if_pos hcy]
        exact ih x c hcx2
      · rw [if_neg hcy]
        exact ih x y hyx

/-- The source's selection (a stable running minimum) computes exactly the
spec's selection (minimum score, first minimal candidate on ties). -/
theorem pyMin_eq_selectSpec (key : Point → Score) :
    ∀ l, pyMin key l = selectSpec key l := by
  intro l
  induction l with
  | nil => rfl
  | cons x xs ih =>
    cases xs with
    | nil => rfl
    | cons y ys =>
      have h : selectSpec key (y :: ys) = some (foldMin key y ys) := by
        rw [← ih]; rfl
      have houter : selectSpec key (x :: y :: ys) =
          match selectSpec key (y :: ys) with
          | none => some x
          | some m => some (if scoreLt (key m) (key x) then m else x) := rfl
      rw [pyMin, houter, h]
      show some (foldMin key x (y :: ys)) =
        some (if scoreLt (key (foldMin key y ys)) (key x) then foldMin key y ys
          else x)
      rw [foldMin]
      by_cases hyx : scoreLt (key y) (key x) = true
      · rw [if_pos hyx]
        have hmin : scoreLt (key y) (key (foldMin key y ys)) = false :=
          foldMin_min key ys y y (List.mem_cons_self y ys)
        rw [if_pos (scoreLt_le_lt hmin hyx)]
      · have hyx2 : scoreLt (key y) (key x) = false := by
          cases h2 : scoreLt (key y) (key x) with
          | false => rfl
          | true => exact absurd h2 hyx
        rw [if_neg hyx]
        exact congrArg some (foldMin_shift key ys x y hyx2)

/-- C1 counterexample: with the linear objective cxLinear (sum of
coordinates), the constant gradient [-1] and tolerance 1/1000000, the loop
body at theta = [0] with current value 0 accepts the step (it does not
terminate) and the accepted value 1/100000 is strictly larger than 0: an
accepted step worsened the safe-wrapped score, so the value sequence of
minimize_batch is not monotonically non-increasing. -/
theorem minimize_batch_value_can_increase :
    safe cxLinear [0] = Score.val 0 ∧
    minimize_batch_step (safe cxLinear) cxGradConstNeg (1 / 1000000) [0]
      (Score.val 0) = Sum.inl ([1 / 100000], Score.val (1 / 100000)) ∧
    scoreLt (Score.val 0) (Score.val (1 / 100000)) = true := by
  refine ⟨by simp [safe, cxLinear], ?_, by norm_num [scoreLt]⟩
  norm_num [minimize_batch_step, next_thetas, step_sizes, step,
    cxGradConstNeg, pyMin, foldMin, safe, cxLinear, scoreLt, absDiffLt,
    abs_lt]

/-- C1 amended: whenever the loop body of minimize_batch accepts a step, the
accepted value is the safe-wrapped score of the accepted candidate, that
candidate is drawn from the step-size menu and no menu candidate scores
strictly below it, and the termination test abs(value - next_value) <
tolerance failed; the loop terminates exactly when that test passes, and an
accepted value may be larger than the current one. -/
theorem minimize_batch_accepted_step (target : Point → Score)
    (gradient_fn : Point → Point) (tolerance : ℚ) (theta : Point)
    (value : Score) (theta2 : Point) (value2 : Score)
    (h : minimize_batch_step target gradient_fn tolerance theta value =
      Sum.inl (theta2, value2)) :
    value2 = target theta2 ∧
    absDiffLt value value2 tolerance = false ∧
    theta2 ∈ next_thetas theta (gradient_fn theta) ∧
    ∀ c ∈ next_thetas theta (gradient_fn theta),
      scoreLt (target c) (target theta2) = false := by
  unfold minimize_batch_step at h
  cases hp : pyMin target (next_thetas theta (gradient_fn theta)) with
  | none =>
    rw [hp] at h
    exact absurd h (by simp)
  | some m =>
    rw [hp] at h
    have h4 : (if absDiffLt value (target m) tolerance then
        (Sum.inr theta : (Point × Score) ⊕ Point)
      else Sum.inl (m, target m)) = Sum.inl (theta2, value2) := h
    by_cases habs : absDiffLt value (target m) tolerance = true
    · rw [if_pos habs] at h4
      exact absurd h4 (by simp)
    · rw [if_neg habs] at h4
      have h5 := Sum.inl.inj h4
      have hm1 : m = theta2 := congrArg Prod.fst h5
      have hm2 : target m = value2 := congrArg Prod.snd h5
      subst hm1
      subst hm2
      have hspec := pyMin_some_mem_min target _ _ hp
      refine ⟨rfl, ?_, hspec.1, hspec.2⟩
      cases h3 : absDiffLt value (target m) tolerance with
      | false => rfl
      | true => exact absurd h3 habs

/-- Witness for C1's amended theorem: the accepted step of the
counterexample run satisfies the characterization. -/
theorem minimize_batch_accepted_step_witness :
    Score.val (1 / 100000) = safe cxLinear [1 / 100000] ∧
    absDiffLt (Score.val 0) (Score.val (1 / 100000)) (1 / 1000000) = false ∧
    [(1 : ℚ) / 100000] ∈ next_thetas [0] (cxGradConstNeg [0]) ∧
    ∀ c ∈ next_thetas [0] (cxGradConstNeg [0]),
      scoreLt (safe cxLinear c) (safe cxLinear [1 / 100000]) = false :=
  minimize_batch_accepted_step (safe cxLinear) cxGradConstNeg (1 / 1000000)
    [0] (Score.val 0) [1 / 100000] (Score.val (1 / 100000))
    (by norm_num [minimize_batch_step, next_thetas, step_sizes, step,
      cxGradConstNeg, pyMin, foldMin, safe, cxLinear, scoreLt, absDiffLt,
      abs_lt])

/-- C4: the candidate selection of minimize_batch computes the spec's
selection (minimum safe-wrapped score, ties broken by menu order with the
first minimal candidate winning); a successful selection is a member of the
candidate list that no candidate strictly undercuts; and when the
abs(value - next_value) < tolerance test passes, the loop body terminates
returning the current pre-step theta. -/
theorem minimize_batch_selection_and_stop :
    (∀ (key : Point → Score) (l : List Point), pyMin key l = selectSpec key l) ∧
    (∀ (key : Point → Score) (l : List Point) (m : Point),
      pyMin key l = some m →
      m ∈ l ∧ ∀ c ∈ l, scoreLt (key c) (key m) = false) ∧
    (∀ (target : Point → Score) (gradient_fn : Point → Point) (tolerance : ℚ)
      (theta : Point) (value : Score) (m : Point),
      pyMin target (next_thetas theta (gradient_fn theta)) = some m →
      absDiffLt value (target m) tolerance = true →
      minimize_batch_step target gradient_fn tolerance theta value =
        Sum.inr theta) := by
  refine ⟨pyMin_eq_selectSpec, pyMin_some_mem_min, ?_⟩
  intro target gradient_fn tolerance theta value m h1 h2
  unfold minimize_batch_step
  rw [h1]
  show (if absDiffLt value (target m) tolerance then
      (Sum.inr theta : (Point × Score) ⊕ Point)
    else Sum.inl (m, target m)) = Sum.inr theta
  rw [if_pos h2]

/-- Witness for C4: at the sum-of-squares objective with theta = [0, 0] the
selection picks [0, 0] and the tolerance test fires, so the loop body
returns the pre-step theta. -/
theorem minimize_batch_selection_and_stop_witness :
    minimize_batch_step (safe ssTarget) sum_of_squares_gradient (1 / 1000000)
      [0, 0] (Score.val 0) = Sum.inr [0, 0] :=
  minimize_batch_selection_and_stop.2.2 (safe ssTarget)
    sum_of_squares_gradient (1 / 1000000) [0, 0] (Score.val 0) [0, 0]
    (by norm_num [pyMin, foldMin, next_thetas, step_sizes, step, safe,
      ssTarget, scoreLt, sum_of_squares_gradient])
    (by norm_num [absDiffLt, safe, ssTarget])

/-- Stepping along an all-zero gradient moves nowhere. -/
theorem step_zero (theta : Point) (c : ℚ) :
    step theta (List.replicate theta.length 0) c = theta := by
  induction theta with
  | nil => rfl
  | cons a as ih =>
    show (a + c * 0) :: step as (List.replicate as.length 0) c = a :: as
    rw [mul_zero, add_zero, ih]

/-- Folding the running minimum over copies of theta returns theta. -/
theorem foldMin_const (key : Point → Score) (theta : Point) :
    ∀ l : List Point, (∀ c ∈ l, c = theta) → foldMin key theta l = theta := by
  intro l
  induction l with
  | nil => intro _; rfl
  | cons c cs ih =>
    intro h
    have hc : c = theta := h c (List.mem_cons_self c cs)
    rw [foldMin, hc, ite_self]
    exact ih (fun d hd => h d (List.mem_cons_of_mem _ hd))

/-- C9: when theta_0 is already at the exact minimum, so that the gradient
there is the zero vector and the target evaluates normally, minimize_batch
terminates on the very first tolerance check (for any positive tolerance)
and returns theta_0 unchanged, whatever fuel beyond the first iteration is
available. -/
theorem minimize_batch_at_minimum (target_fn : TargetFn)
    (gradient_fn : Point → Point) (theta_0 : Point) (tolerance : ℚ) (q : ℚ)
    (fuel : ℕ)
    (hg : gradient_fn theta_0 = List.replicate theta_0.length 0)
    (hv : target_fn theta_0 = Except.ok q)
    (ht : 0 < tolerance) :
    minimize_batch target_fn gradient_fn theta_0 tolerance (fuel + 1) =
      some theta_0 := by
  have hsafe : safe target_fn theta_0 = Score.val q := by simp [safe, hv]
  have hnext : next_thetas theta_0 (gradient_fn theta_0) =
      step_sizes.map (fun _ => theta_0) := by
    rw [hg]
    simp [next_thetas, step_zero]
  have hmin : pyMin (safe target_fn)
      (next_thetas theta_0 (gradient_fn theta_0)) = some theta_0 := by
    rw [hnext]
    simp only [step_sizes, List.map_cons, List.map_nil, pyMin]
    exact congrArg some (foldMin_const _ _ _ (by simp))
  have hstep : minimize_batch_step (safe target_fn) gradient_fn tolerance
      theta_0 (Score.val q) = Sum.inr theta_0 := by
    unfold minimize_batch_step
    rw [hmin]
    show (if absDiffLt (Score.val q) (safe target_fn theta_0) tolerance then
        (Sum.inr theta_0 : (Point × Score) ⊕ Point)
      else Sum.inl (theta_0, safe target_fn theta_0)) = Sum.inr theta_0
    rw [if_pos (by rw [hsafe]; simp [absDiffLt, sub_self, abs_zero, ht])]
  unfold minimize_batch
  rw [hsafe]
  show (match minimize_batch_step (safe target_fn) gradient_fn tolerance
      theta_0 (Score.val q) with
    | Sum.inr r => some r
    | Sum.inl (theta2, value2) =>
      minimize_batch_aux (safe target_fn) gradient_fn tolerance fuel theta2
        value2) = some theta_0
  rw [hstep]

/-- Witness for C9: the sum-of-squares objective at its exact minimum
theta_0 = [0, 0] with its zero gradient and the default tolerance. -/
theorem minimize_batch_at_minimum_witness :
    minimize_batch ssTarget sum_of_squares_gradient [0, 0] (1 / 1000000) 1 =
      some [0, 0] :=
  minimize_batch_at_minimum ssTarget sum_of_squares_gradient [0, 0]
    (1 / 1000000) 0 0 (by simp [sum_of_squares_gradient, List.replicate])
    (by simp [ssTarget]) (by norm_num)

/-- C6 counterexample: the batch path's stepping arithmetic, step, zips the
Point with the Gradient, so combining the length-2 Point [1, 2] with the
length-1 Gradient [1] yields the silently truncated Point [2] of length 1 —
no error is surfaced at all. -/
theorem step_silently_truncates :
    step [(1 : ℚ), 2] [1] 1 = [2] ∧ (step [(1 : ℚ), 2] [1] 1).length ≠ 2 := by
  norm_num [step]

/-- C6 amended: the vector-ops collaborator used by the stochastic stepping
path does fail fast — vector_subtract raises IndexError on a length mismatch
of otherwise valid vectors and on an argument that is not a valid vector,
and subtracting validated string elements still raises TypeError, all
propagating uncaught — but the batch path's step never reports a length
mismatch: it truncates to the shorter of the two sequences. -/
theorem vector_ops_shape_errors :
    (∀ v1 v2 : List PyVal, is_vector v1 = true → is_vector v2 = true →
      v1.length ≠ v2.length →
      vector_subtract v1 v2 =
        Except.error (PyError.indexError "Vectors must be the same length")) ∧
    (∀ v1 v2 : List PyVal, (is_vector v1 && is_vector v2) = false →
      vector_subtract v1 v2 =
        Except.error (PyError.indexError
          "One of the vectors passed is not a valid vector")) ∧
    (vector_subtract [PyVal.str "a"] [PyVal.str "b"] =
      Except.error PyError.typeError) ∧
    (∀ (v g : Point) (s : ℚ), (step v g s).length = min v.length g.length) := by
  refine ⟨?_, ?_, rfl, ?_⟩
  · intro v1 v2 h1 h2 hl
    simp [vector_subtract, h1, h2, hl]
  · intro v1 v2 h
    simp [vector_subtract, h]
  · intro v g s
    simp [step]

/-- Witness for C6's amended theorem: a concrete length mismatch and a
concrete invalid vector, both rejected by vector_subtract. -/
theorem vector_ops_shape_errors_witness :
    vector_subtract [PyVal.int 1, PyVal.int 2] [PyVal.int 1] =
      Except.error (PyError.indexError "Vectors must be the same length") ∧
    vector_subtract [PyVal.list []] [PyVal.int 1] =
      Except.error (PyError.indexError
        "One of the vectors passed is not a valid vector") :=
  ⟨vector_ops_shape_errors.1 _ _ rfl rfl (by decide),
   vector_ops_shape_errors.2.1 _ _ rfl⟩

end PyDS
